import Mathlib

/-!
Shallow embedding of the real-time transcription session core of the
transcribeRx client (the `App` component: recording orchestration, the
streaming-message handler, the incremental analysis scheduler, the
disease aggregator and the similarity gate), together with theorems
settling the specification claims about it.

Numeric model: JS numbers carrying detection confidences and similarity
scores are modelled as rationals; JS string lengths are code-point
counts, which agree with UTF-16 lengths on the ASCII data used here.
-/

namespace TranscribeRx

/-! ## Similarity Gate -/

/-- One step of the JS regex split on whitespace runs (`text.split(/\s+/)`):
walks the character list keeping the current fragment in `acc`; a
whitespace character ends the current fragment, and `inRun` records that
we are inside a whitespace run so the rest of the run is skipped.
Matches the JS behaviour of producing an empty fragment for leading and
trailing whitespace. -/
def splitWsAux : List Char → List Char → Bool → List (List Char)
  | [], acc, _ => [acc.reverse]
  | c :: rest, acc, inRun =>
    if c.isWhitespace then
      if inRun then splitWsAux rest acc true
      else acc.reverse :: splitWsAux rest [] true
    else splitWsAux rest (c :: acc) false

/-- JS `text.split(/\s+/)` on a Lean string. -/
def splitWs (s : String) : List String :=
  (splitWsAux s.data [] false).map List.asString

/-- JS `text.toLowerCase()` (ASCII range, as `Char.toLower`). -/
def jsToLower (s : String) : String :=
  (s.data.map Char.toLower).asString

/-- The fragment list the source builds for one input of
`calculateSimilarity`: `text.toLowerCase().split(/\s+/)`. -/
def tokenList (s : String) : List String :=
  splitWs (jsToLower s)

/-- The JS `Set` built from the fragments (deduplicated, only cardinality
and membership are used downstream). -/
def tokenFinset (s : String) : Finset String :=
  (tokenList s).toFinset

/-- Source `calculateSimilarity(text1, text2)`: returns 0 when either
input is empty (JS falsiness of a string), otherwise the ratio of the
intersection and union sizes of the two fragment sets, guarded by
`union.size > 0`. -/
def calculateSimilarity (text1 text2 : String) : ℚ :=
  if text1 = "" ∨ text2 = "" then 0
  else if 0 < (tokenFinset text1 ∪ tokenFinset text2).card then
    ((tokenFinset text1 ∩ tokenFinset text2).card : ℚ) /
      ((tokenFinset text1 ∪ tokenFinset text2).card : ℚ)
  else 0

/-- Modelled from the spec: the whitespace-token set the specification
describes for the Similarity Gate, i.e. the set of maximal non-empty
non-whitespace runs of the lower-cased input.  Used only to compare the
source function against the wording of the specification. -/
def specTokenFinset (s : String) : Finset String :=
  ((splitWs (jsToLower s)).filter (fun t => t ≠ "")).toFinset

/-- Modelled from the spec: the Similarity Gate as the specification
words it — the Jaccard index of the lower-cased whitespace-token sets of
the two inputs, 0 when either input is empty. -/
def specSimilarity (text1 text2 : String) : ℚ :=
  if text1 = "" ∨ text2 = "" then 0
  else if 0 < (specTokenFinset text1 ∪ specTokenFinset text2).card then
    ((specTokenFinset text1 ∩ specTokenFinset text2).card : ℚ) /
      ((specTokenFinset text1 ∪ specTokenFinset text2).card : ℚ)
  else 0

/-- The number of whitespace-delimited tokens of a string in the sense of
the specification (maximal non-empty non-whitespace runs). -/
def wsTokenCount (s : String) : Nat :=
  ((splitWs s).filter (fun t => t ≠ "")).length

/-! ## Disease Aggregator -/

/-- Severity levels of a detection (source union type). -/
inductive Severity where
  | low
  | medium
  | high
deriving DecidableEq, Repr

/-- Source `DiseaseHighlight` record carried by detection results.
`disease_name` and `icd10_code` are optional in the source type; the
highlight position is a start and end offset. -/
structure DiseaseHighlight where
  disease : String
  disease_name : Option String
  icd10_code : Option String
  confidence : ℚ
  severity : Severity
  position : Nat × Nat
  supporting_symptoms : List String
deriving DecidableEq, Repr

/-- Keys of a detection list, as the source computes them:
`prev.map(d => d.disease_name)`. -/
def namesOf (l : List DiseaseHighlight) : List (Option String) :=
  l.map (fun d => d.disease_name)

/-- The aggregation step of `detectDiseases` (`setDiseases` updater):
builds the set of names already present, keeps only incoming detections
whose name is not in that set, and appends the survivors. -/
def mergeDetections (prev incoming : List DiseaseHighlight) : List DiseaseHighlight :=
  prev ++ incoming.filter (fun d => decide (d.disease_name ∉ namesOf prev))

/-! ## Transcript messages and speaker formatting -/

/-- One entry of the `words` array of an inbound transcript message.
`speaker_tag` is `none` when the field is absent or empty (both are
falsy in JS, where the source applies the default). -/
structure WordInfo where
  word : String
  speaker_tag : Option String
deriving DecidableEq, Repr

/-- An inbound JSON transcript message.  `error = none` models a message
whose `error` field is absent or falsy; `text = ""` models an absent or
empty `text`; `words = []` models an absent or empty `words` array
(the source checks `data.words && data.words.length > 0`). -/
structure TranscriptMsg where
  error : Option String
  text : String
  words : List WordInfo
  is_final : Bool
deriving DecidableEq, Repr

/-- Source default: `word.speaker_tag || 'SPEAKER_1'`. -/
def tagOf (w : WordInfo) : String :=
  match w.speaker_tag with
  | none => "SPEAKER_1"
  | some t => if t = "" then "SPEAKER_1" else t

/-- Source label choice: `speaker === 'SPEAKER_2' ? 'Patient' : 'Doctor'`. -/
def speakerLabel (tag : String) : String :=
  if tag = "SPEAKER_2" then "Patient" else "Doctor"

/-- Insert one word into the speaker groups, preserving first-occurrence
order of the tags (JS object property insertion order for the
non-numeric string keys used by the protocol). -/
def addWord (groups : List (String × List String)) (tag : String) (w : String) :
    List (String × List String) :=
  match groups with
  | [] => [(tag, [w])]
  | (t, ws) :: rest =>
    if t = tag then (t, ws ++ [w]) :: rest
    else (t, ws) :: addWord rest tag w

/-- The `speakerGroups` object of the message handler: group the words of
one message by speaker tag. -/
def groupWords (words : List WordInfo) : List (String × List String) :=
  words.foldl (fun gs w => addWord gs (tagOf w) w.word) []

/-- Render one speaker group: `label + ": " + words.join(' ')`. -/
def renderGroup (g : String × List String) : String :=
  speakerLabel g.1 ++ ": " ++ String.intercalate " " g.2

/-- The formatted text of one message: when the words array is non-empty,
the rendered speaker groups joined with a newline, otherwise the raw
text. -/
def formatMsg (m : TranscriptMsg) : String :=
  if m.words = [] then m.text
  else String.intercalate "\n" ((groupWords m.words).map renderGroup)

/-- JS `String.split(' ')`: split on every single space character,
keeping empty fragments. -/
def splitSpaceAux : List Char → List Char → List (List Char)
  | [], acc => [acc.reverse]
  | c :: rest, acc =>
    if c = ' ' then acc.reverse :: splitSpaceAux rest []
    else splitSpaceAux rest (c :: acc)

/-- The token count used by the interim branch of the message handler:
`data.text.split(' ').length`. -/
def splitOnSpace (s : String) : List String :=
  (splitSpaceAux s.data []).map List.asString

/-! ## Session state and observable effects -/

/-- The mutable state of the recording session that the claims are about:
the React state slots and refs of the `App` component that the core
handlers touch.  `pendingTimer` models `diseaseDetectionTimerRef` as the
text a currently armed debounce timer will analyze; `hasSession` models
the presence of the `session` object (created by `startSession` and
never changed during a recording). -/
structure RecState where
  hasSession : Bool
  isRecording : Bool
  isConnected : Bool
  isLiveTranscribing : Bool
  audioNodes : Bool
  liveTranscript : String
  liveTranscriptHistory : List String
  diseases : List DiseaseHighlight
  pendingTimer : Option String
  lastDetectedText : String
deriving DecidableEq, Repr

/-- The outward-visible actions the handlers perform, in order:
HTTP calls to the analysis, SOAP and recommendation collaborators, the
invocation of the debounced scheduler, WebSocket sends and closes, and
alert pop-ups. -/
inductive Effect where
  | analyzeCall (transcript : String)
  | debounceReq (text : String)
  | soapCall (transcript : String)
  | recCall (transcript : String)
  | wsSend (payload : String)
  | wsClose (code : Nat)
  | alertMsg (msg : String)
deriving DecidableEq, Repr

/-- Source `detectDiseases(text)`: with no session it logs and returns,
otherwise it issues the `POST /v1/analyze` call on the given text.  The
asynchronous response is modelled separately by `applyDetections`. -/
def detectDiseases (st : RecState) (text : String) : RecState × List Effect :=
  if st.hasSession then (st, [Effect.analyzeCall text]) else (st, [])

/-- Source `detectDiseasesDebounced(text)`: clears any pending timer
(in every branch, since `clearTimeout` runs first), returns early when
the text has fewer than 10 characters, drops the request when the
similarity with the last analyzed text exceeds 0.85, and otherwise arms
the 1.5-second timer with this text. -/
def detectDiseasesDebounced (st : RecState) (text : String) : RecState × List Effect :=
  if text.length < 10 then ({ st with pendingTimer := none }, [])
  else if (0.85 : ℚ) < calculateSimilarity st.lastDetectedText text then
    ({ st with pendingTimer := none }, [])
  else ({ st with pendingTimer := some text }, [])

/-- The callback of the armed debounce timer: records the analyzed text
in `lastDetectedTextRef` and triggers `detectDiseases`.  With no armed
timer nothing fires. -/
def debounceTimerFire (st : RecState) : RecState × List Effect :=
  match st.pendingTimer with
  | none => (st, [])
  | some text =>
    detectDiseases { st with pendingTimer := none, lastDetectedText := text } text

/-- Arrival of a disease-analysis response: `setDiseases` merges the
detections when the list is non-empty. -/
def applyDetections (st : RecState) (ds : List DiseaseHighlight) : RecState :=
  if ds = [] then st else { st with diseases := mergeDetections st.diseases ds }

/-- The `ws.onmessage` handler of `startRecording`: an error message
raises an alert; a message with text formats it, then either finalizes
it (append to history, clear the interim slot, immediate analysis) or
stores it as the interim transcript and, when the raw text splits into
at least 5 space-separated fragments, invokes the debounced scheduler. -/
def handleMessage (st : RecState) (m : TranscriptMsg) : RecState × List Effect :=
  match m.error with
  | some e => (st, [Effect.alertMsg ("Transcription error: " ++ e)])
  | none =>
    if m.text = "" then (st, [])
    else if m.is_final then
      detectDiseases
        { st with liveTranscriptHistory := st.liveTranscriptHistory ++ [formatMsg m],
                  liveTranscript := "" }
        (formatMsg m)
    else if 5 ≤ (splitOnSpace m.text).length then
      ((detectDiseasesDebounced { st with liveTranscript := formatMsg m } m.text).1,
        Effect.debounceReq m.text ::
          (detectDiseasesDebounced { st with liveTranscript := formatMsg m } m.text).2)
    else ({ st with liveTranscript := formatMsg m }, [])

/-- Fold of the message handler over a delivered message sequence. -/
def handleAll (st : RecState) (ms : List TranscriptMsg) : RecState :=
  ms.foldl (fun s m => (handleMessage s m).1) st

/-! ## Stop sequence -/

/-- JS `String.trim()` (whitespace stripped from both ends). -/
def jsTrim (s : String) : String :=
  ((s.data.dropWhile Char.isWhitespace).reverse.dropWhile Char.isWhitespace).reverse.asString

/-- The `fullTranscript` both terminal generators build:
`liveTranscriptHistory.join('\n\n')`. -/
def fullTranscriptOf (st : RecState) : String :=
  String.intercalate "\n\n" st.liveTranscriptHistory

/-- Source `generateSOAP()`: skipped without a session; with an empty or
blank joined transcript it alerts and returns before contacting the
collaborator; otherwise it issues the `POST /v1/soap/generate` call. -/
def generateSOAP (st : RecState) : RecState × List Effect :=
  if st.hasSession then
    if fullTranscriptOf st = "" ∨ jsTrim (fullTranscriptOf st) = "" then
      (st, [Effect.alertMsg "No transcript available. Please record some conversation first."])
    else (st, [Effect.soapCall (fullTranscriptOf st)])
  else (st, [])

/-- Source `generateRecommendations()`: skipped without a session or with
an empty or blank joined transcript; otherwise it issues the
`POST /v1/recommendations/generate` call. -/
def generateRecommendations (st : RecState) : RecState × List Effect :=
  if st.hasSession then
    if fullTranscriptOf st = "" ∨ jsTrim (fullTranscriptOf st) = "" then (st, [])
    else (st, [Effect.recCall (fullTranscriptOf st)])
  else (st, [])

/-- The WebSocket finalize block of `stopRecording`, as a function of the
socket `readyState` (CONNECTING = 0, OPEN = 1, CLOSING = 2, CLOSED = 3):
send the sentinel when open, then close with the normal code 1000 unless
the socket is already closing or closed. -/
def wsFinalize (readyState : Nat) : List Effect :=
  (if readyState = 1 then [Effect.wsSend "END_OF_STREAM"] else []) ++
  (if readyState ≠ 2 ∧ readyState ≠ 3 then [Effect.wsClose 1000] else [])

/-- The finalize block including the `wsRef.current` null check. -/
def wsFinalizeOpt : Option Nat → List Effect
  | none => []
  | some rs => wsFinalize rs

/-- The state right after the teardown part of `stopRecording`:
audio nodes disconnected and the recording flags cleared. -/
def stoppedState (st : RecState) : RecState :=
  { st with audioNodes := false,
            isRecording := false,
            isConnected := false,
            isLiveTranscribing := false }

/-- Source `stopRecording()`: disconnect the audio nodes, finalize the
socket, clear the recording flags, then — when a session exists — run
`generateSOAP` followed by `generateRecommendations`. -/
def stopRecording (st : RecState) (wsState : Option Nat) : RecState × List Effect :=
  if st.hasSession then
    ((generateRecommendations (generateSOAP (stoppedState st)).1).1,
      wsFinalizeOpt wsState ++ (generateSOAP (stoppedState st)).2 ++
        (generateRecommendations (generateSOAP (stoppedState st)).1).2)
  else (stoppedState st, wsFinalizeOpt wsState)

/-! ## Event dispatch -/

/-- The callback-driven events of one recording session, dispatched on
the single logical thread of the app: an inbound socket message, the
debounce timer firing, an analysis response arriving, and the stop
request (carrying the socket readyState observed at that moment). -/
inductive Event where
  | message (m : TranscriptMsg)
  | timerFire
  | analysisResponse (ds : List DiseaseHighlight)
  | stop (ws : Option Nat)

/-- One dispatch step of the event loop. -/
def step (st : RecState) (e : Event) : RecState × List Effect :=
  match e with
  | Event.message m => handleMessage st m
  | Event.timerFire => debounceTimerFire st
  | Event.analysisResponse ds => (applyDetections st ds, [])
  | Event.stop ws => stopRecording st ws

/-! ## Concrete values used by counterexamples and witnesses -/

/-- A fresh recording-session state: session created, recording live,
nothing analyzed yet. -/
def st0 : RecState :=
  { hasSession := true, isRecording := true, isConnected := true, isLiveTranscribing := true,
    audioNodes := true, liveTranscript := "", liveTranscriptHistory := [], diseases := [],
    pendingTimer := none, lastDetectedText := "" }

/-- A recording state with a debounce timer currently armed. -/
def stArmed : RecState :=
  { st0 with pendingTimer := some "previously scheduled text" }

/-- An interim message whose words are separated by tabs: five
whitespace-delimited tokens, but a single fragment for `split(' ')`. -/
def msgTabs : TranscriptMsg :=
  { error := none, text := "a\tb\tc\td\te", words := [], is_final := false }

/-- A final two-speaker message. -/
def msgFinal1 : TranscriptMsg :=
  { error := none, text := "hello there hi doctor",
    words := [{ word := "hello", speaker_tag := some "SPEAKER_1" },
              { word := "there", speaker_tag := none },
              { word := "hi", speaker_tag := some "SPEAKER_2" },
              { word := "doctor", speaker_tag := some "SPEAKER_2" }],
    is_final := true }

/-- A second final message without word-level speaker data. -/
def msgFinal2 : TranscriptMsg :=
  { error := none, text := "take two aspirin", words := [], is_final := true }

/-- The first detection of the duplicate-name scenario
(`disease_name: "Pneumonia", confidence: 0.9`). -/
def pneumonia09 : DiseaseHighlight :=
  { disease := "Pneumonia", disease_name := some "Pneumonia", icd10_code := some "J18.9",
    confidence := 0.9, severity := Severity.high, position := (0, 0),
    supporting_symptoms := [] }

/-- The repeated detection of the duplicate-name scenario
(`disease_name: "Pneumonia", confidence: 0.6`). -/
def pneumonia06 : DiseaseHighlight :=
  { disease := "Pneumonia", disease_name := some "Pneumonia", icd10_code := some "J18.9",
    confidence := 0.6, severity := Severity.medium, position := (0, 0),
    supporting_symptoms := [] }

/-! ## Helper lemmas -/

theorem mem_namesOf_merge (S L : List DiseaseHighlight) (d : DiseaseHighlight)
    (hd : d ∈ L) : d.disease_name ∈ namesOf (mergeDetections S L) := by
  unfold mergeDetections namesOf
  rw [List.map_append, List.mem_append]
  by_cases hmem : d.disease_name ∈ namesOf S
  · exact Or.inl hmem
  · refine Or.inr (List.mem_map.mpr ⟨d, ?_, rfl⟩)
    rw [List.mem_filter]
    exact ⟨hd, decide_eq_true hmem⟩

theorem splitWsAux_ne_nil (l : List Char) : ∀ (acc : List Char) (b : Bool),
    splitWsAux l acc b ≠ [] := by
  induction l with
  | nil => intro acc b; simp [splitWsAux]
  | cons c rest ih =>
    intro acc b
    simp only [splitWsAux]
    split
    · split
      · exact ih acc true
      · simp
    · exact ih (c :: acc) false

theorem tokenFinset_card_pos (s : String) : 0 < (tokenFinset s).card := by
  rw [Finset.card_pos]
  unfold tokenFinset tokenList splitWs
  rcases hl : splitWsAux (jsToLower s).data [] false with _ | ⟨t, ts⟩
  · exact absurd hl (splitWsAux_ne_nil _ _ _)
  · exact ⟨t.asString, by simp⟩

theorem similarity_self (x : String) (hx : x ≠ "") : calculateSimilarity x x = 1 := by
  unfold calculateSimilarity
  rw [if_neg (by simp [hx])]
  rw [Finset.union_self, Finset.inter_self]
  rw [if_pos (tokenFinset_card_pos x)]
  exact div_self (ne_of_gt (by exact_mod_cast tokenFinset_card_pos x))

theorem similarity_empty_left (y : String) : calculateSimilarity "" y = 0 := by
  unfold calculateSimilarity
  rw [if_pos (Or.inl rfl)]

theorem similarity_empty_right (y : String) : calculateSimilarity y "" = 0 := by
  unfold calculateSimilarity
  rw [if_pos (Or.inr rfl)]

theorem similarity_symm (a b : String) : calculateSimilarity a b = calculateSimilarity b a := by
  unfold calculateSimilarity
  by_cases h : a = "" ∨ b = ""
  · rw [if_pos h, if_pos (or_comm.mp h)]
  · rw [if_neg h, if_neg (fun hc => h (or_comm.mp hc)),
      Finset.union_comm (tokenFinset b) (tokenFinset a),
      Finset.inter_comm (tokenFinset b) (tokenFinset a)]

theorem similarity_jaccard (a b : String) (ha : a ≠ "") (hb : b ≠ "") :
    calculateSimilarity a b =
      ((tokenFinset a ∩ tokenFinset b).card : ℚ) /
        ((tokenFinset a ∪ tokenFinset b).card : ℚ) := by
  unfold calculateSimilarity
  rw [if_neg (by simp [ha, hb])]
  rw [if_pos (lt_of_lt_of_le (tokenFinset_card_pos a)
    (Finset.card_le_card Finset.subset_union_left))]

theorem detectDiseases_fst (st : RecState) (t : String) : (detectDiseases st t).1 = st := by
  unfold detectDiseases
  split
  · rfl
  · rfl

theorem debounced_frame (st : RecState) (t : String) :
    (detectDiseasesDebounced st t).2 = [] ∧
    (detectDiseasesDebounced st t).1.liveTranscript = st.liveTranscript ∧
    (detectDiseasesDebounced st t).1.liveTranscriptHistory = st.liveTranscriptHistory ∧
    (detectDiseasesDebounced st t).1.lastDetectedText = st.lastDetectedText := by
  unfold detectDiseasesDebounced
  split_ifs <;> exact ⟨rfl, rfl, rfl, rfl⟩

theorem hm_lastDetected (st : RecState) (m : TranscriptMsg) :
    (handleMessage st m).1.lastDetectedText = st.lastDetectedText := by
  unfold handleMessage
  cases hme : m.error with
  | some e => rfl
  | none =>
    split_ifs with h1 h2 h3
    · rfl
    · rw [detectDiseases_fst]
    · exact (debounced_frame _ m.text).2.2.2
    · rfl

theorem generateSOAP_fst (st : RecState) : (generateSOAP st).1 = st := by
  unfold generateSOAP
  split_ifs <;> rfl

theorem generateRecommendations_fst (st : RecState) : (generateRecommendations st).1 = st := by
  unfold generateRecommendations
  split_ifs <;> rfl

theorem generate_effects_kind (st : RecState) (e : Effect)
    (he : e ∈ (generateSOAP st).2 ∨ e ∈ (generateRecommendations st).2) :
    (∃ t, e = Effect.soapCall t) ∨ (∃ t, e = Effect.recCall t) ∨ ∃ s, e = Effect.alertMsg s := by
  rcases he with he | he
  · unfold generateSOAP at he
    split_ifs at he <;> simp at he <;> simp [he]
  · unfold generateRecommendations at he
    split_ifs at he
    · exact absurd he (List.not_mem_nil e)
    · simp at he
      simp [he]
    · exact absurd he (List.not_mem_nil e)

theorem wsFinalizeOpt_effects_kind (ws : Option Nat) (e : Effect)
    (he : e ∈ wsFinalizeOpt ws) :
    (∃ p, e = Effect.wsSend p) ∨ ∃ c, e = Effect.wsClose c := by
  cases ws with
  | none => simp [wsFinalizeOpt] at he
  | some rs =>
    simp only [wsFinalizeOpt, wsFinalize, List.mem_append] at he
    rcases he with he | he <;> split_ifs at he <;> simp at he <;> simp [he]

theorem stopRecording_effects (st : RecState) (ws : Option Nat) :
    ∃ rest, (stopRecording st ws).2 = wsFinalizeOpt ws ++ rest ∧
      ∀ e ∈ rest, (∃ t, e = Effect.soapCall t) ∨ (∃ t, e = Effect.recCall t) ∨
        ∃ s, e = Effect.alertMsg s := by
  unfold stopRecording
  split_ifs with h
  · refine ⟨(generateSOAP (stoppedState st)).2 ++
      (generateRecommendations (generateSOAP (stoppedState st)).1).2,
      (List.append_assoc _ _ _).symm ▸ rfl, ?_⟩
    intro e he
    rw [List.mem_append] at he
    rcases he with he | he
    · exact generate_effects_kind _ e (Or.inl he)
    · exact generate_effects_kind _ e (Or.inr he)
  · exact ⟨[], by simp, by simp⟩

/-- A 4-word interim message (the below-threshold scenario). -/
def msg4words : TranscriptMsg :=
  { error := none, text := "Patient reports chest pain", words := [], is_final := false }

theorem final_step_state (st : RecState) (m : TranscriptMsg)
    (he : m.error = none) (hf : m.is_final = true) (ht : m.text ≠ "") :
    (handleMessage st m).1 =
      { st with liveTranscriptHistory := st.liveTranscriptHistory ++ [formatMsg m],
                liveTranscript := "" } := by
  unfold handleMessage
  rw [he]
  simp only [if_neg ht, hf, if_true]
  rw [detectDiseases_fst]

theorem handleAll_final_history (ms : List TranscriptMsg) :
    ∀ st : RecState, (∀ m ∈ ms, m.error = none ∧ m.is_final = true ∧ m.text ≠ "") →
    (handleAll st ms).liveTranscriptHistory = st.liveTranscriptHistory ++ ms.map formatMsg := by
  induction ms with
  | nil =>
    intro st _
    simp [handleAll]
  | cons m rest ih =>
    intro st h
    obtain ⟨he, hf, ht⟩ := h m (List.mem_cons_self m rest)
    have hrest : ∀ m2 ∈ rest, m2.error = none ∧ m2.is_final = true ∧ m2.text ≠ "" :=
      fun m2 hm2 => h m2 (List.mem_cons_of_mem m hm2)
    show (handleAll (handleMessage st m).1 rest).liveTranscriptHistory = _
    rw [ih (handleMessage st m).1 hrest, final_step_state st m he hf ht]
    simp

theorem generateSOAP_empty (st2 : RecState) (h : fullTranscriptOf st2 = "") :
    (generateSOAP st2).2 = [] ∨ ∃ s, (generateSOAP st2).2 = [Effect.alertMsg s] := by
  unfold generateSOAP
  split_ifs with h1 h2
  · exact Or.inr ⟨_, rfl⟩
  · exact absurd (Or.inl h) h2
  · exact Or.inl rfl

theorem generateRec_empty (st2 : RecState) (h : fullTranscriptOf st2 = "") :
    (generateRecommendations st2).2 = [] := by
  unfold generateRecommendations
  split_ifs with h1 h2
  · rfl
  · exact absurd (Or.inl h) h2
  · rfl

/-! ## Claim theorems -/

/-- Claim C1 (amended): for every debounced analysis request with text
`t`, any pending debounce timer is cancelled first; the request is
dropped when the text is shorter than 10 characters (checked before the
similarity gate); otherwise it is dropped when
`similarity(lastAnalyzedText, t) > 0.85`; otherwise the 1.5-second timer
is armed with `t`, and an armed timer that fires sets
`lastAnalyzedText := t` and issues the analysis call.  The length floor
and the similarity score are the only conditions that drop a request. -/
theorem debounce_scheduler_spec (st : RecState) (t : String) :
    (detectDiseasesDebounced st t).2 = [] ∧
    (detectDiseasesDebounced st t).1.lastDetectedText = st.lastDetectedText ∧
    (t.length < 10 → (detectDiseasesDebounced st t).1.pendingTimer = none) ∧
    (10 ≤ t.length → (0.85 : ℚ) < calculateSimilarity st.lastDetectedText t →
      (detectDiseasesDebounced st t).1.pendingTimer = none) ∧
    (10 ≤ t.length → ¬ (0.85 : ℚ) < calculateSimilarity st.lastDetectedText t →
      (detectDiseasesDebounced st t).1.pendingTimer = some t) ∧
    (st.pendingTimer = some t → st.hasSession = true →
      (debounceTimerFire st).1.lastDetectedText = t ∧
      (debounceTimerFire st).1.pendingTimer = none ∧
      (debounceTimerFire st).2 = [Effect.analyzeCall t]) := by
  refine ⟨(debounced_frame st t).1, (debounced_frame st t).2.2.2, ?_, ?_, ?_, ?_⟩
  · intro h
    unfold detectDiseasesDebounced
    rw [if_pos h]
  · intro h hsim
    unfold detectDiseasesDebounced
    rw [if_neg (Nat.not_lt.mpr h), if_pos hsim]
  · intro h hsim
    unfold detectDiseasesDebounced
    rw [if_neg (Nat.not_lt.mpr h), if_neg hsim]
  · intro hp hs
    unfold debounceTimerFire
    rw [hp]
    unfold detectDiseases
    simp [hs]

/-- Claim C1 counterexample: the 9-character, 5-word text
`"a b c d e"` against an empty `lastAnalyzedText` has similarity 0, so
by the claim the timer should be armed, yet the code drops the request
(no timer armed, no effect) because of the 10-character length floor —
the similarity score is not the only condition that can drop a
request. -/
theorem debounce_length_gate_cex :
    ¬ (0.85 : ℚ) < calculateSimilarity st0.lastDetectedText "a b c d e" ∧
    (detectDiseasesDebounced st0 "a b c d e").1.pendingTimer = none ∧
    (detectDiseasesDebounced st0 "a b c d e").2 = [] := by
  refine ⟨?_, rfl, rfl⟩
  rw [show st0.lastDetectedText = "" from rfl, similarity_empty_left]
  norm_num

/-- Claim C1 witness: a long-enough dissimilar text arms the timer, and
an armed timer that fires records its text and issues the analysis
call. -/
theorem debounce_scheduler_spec_witness :
    10 ≤ ("patient has chest pain" : String).length ∧
    (detectDiseasesDebounced st0 "patient has chest pain").1.pendingTimer =
      some "patient has chest pain" ∧
    stArmed.pendingTimer = some "previously scheduled text" ∧
    (debounceTimerFire stArmed).1.lastDetectedText = "previously scheduled text" ∧
    (debounceTimerFire stArmed).2 = [Effect.analyzeCall "previously scheduled text"] := by
  have hsim : ¬ (0.85 : ℚ) < calculateSimilarity st0.lastDetectedText "patient has chest pain" := by
    rw [show st0.lastDetectedText = "" from rfl, similarity_empty_left]
    norm_num
  have h1 := (debounce_scheduler_spec st0 "patient has chest pain").2.2.2.2.1 (by decide) hsim
  have h2 := (debounce_scheduler_spec stArmed "previously scheduled text").2.2.2.2.2 rfl rfl
  exact ⟨by decide, h1, rfl, h2.1, h2.2.2⟩

/-- Claim C2 (amended): an interim message with non-empty text sets the
interim slot to the formatted text, and the debounced scheduler is
invoked exactly when splitting the raw text on the single space
character (JS `split(' ')`, empty fragments included) yields at least 5
fragments. -/
theorem interim_debounce_gate_spec (st : RecState) (m : TranscriptMsg)
    (he : m.error = none) (hf : m.is_final = false) (ht : m.text ≠ "") :
    (handleMessage st m).1.liveTranscript = formatMsg m ∧
    (Effect.debounceReq m.text ∈ (handleMessage st m).2 ↔
      5 ≤ (splitOnSpace m.text).length) := by
  unfold handleMessage
  rw [he]
  simp only [if_neg ht, hf, Bool.false_eq_true, if_false]
  by_cases h5 : 5 ≤ (splitOnSpace m.text).length
  · rw [if_pos h5]
    refine ⟨?_, ?_⟩
    · rw [(debounced_frame _ m.text).2.1]
    · simp [h5]
  · rw [if_neg h5]
    exact ⟨rfl, by simp [h5]⟩

/-- Claim C2 counterexample: the interim text `"a\tb\tc\td\te"` has 5
whitespace-delimited tokens, so by the claim a debounced analysis should
be requested, yet the code requests none (no effect, armed timer left
untouched) because it splits on the space character only and sees a
single fragment. -/
theorem interim_whitespace_tokens_cex :
    wsTokenCount msgTabs.text = 5 ∧
    msgTabs.is_final = false ∧
    msgTabs.text ≠ "" ∧
    (handleMessage stArmed msgTabs).2 = [] ∧
    (handleMessage stArmed msgTabs).1.pendingTimer = stArmed.pendingTimer :=
  ⟨by decide, rfl, by decide, rfl, rfl⟩

/-- Claim C2 witness: the 4-word interim text
`"Patient reports chest pain"` yields 4 fragments and triggers no
debounced request. -/
theorem interim_debounce_gate_spec_witness :
    (splitOnSpace msg4words.text).length = 4 ∧
    ¬ Effect.debounceReq msg4words.text ∈ (handleMessage st0 msg4words).2 := by
  refine ⟨by decide, ?_⟩
  intro hmem
  have h := (interim_debounce_gate_spec st0 msg4words rfl rfl (by decide)).2.mp hmem
  exact absurd h (by decide)

/-- Claim C3 counterexample: a single incoming batch holding two
detections named `"Pneumonia"` (confidence 0.9 then 0.6) survives the
merge whole — the merged set keeps both entries, violating the
at-most-one-entry-per-name invariant as stated. -/
theorem merge_duplicate_batch_cex :
    pneumonia09.disease_name = pneumonia06.disease_name ∧
    mergeDetections [] [pneumonia09, pneumonia06] = [pneumonia09, pneumonia06] ∧
    ¬ (namesOf (mergeDetections [] [pneumonia09, pneumonia06])).Nodup := by
  refine ⟨rfl, rfl, ?_⟩
  intro h
  simp [mergeDetections, namesOf, pneumonia09, pneumonia06] at h

/-- Claim C3 (amended): when the existing set and the incoming batch
each carry pairwise-distinct disease names, the merged set again has at
most one entry per name, the existing entries are kept unchanged in
place (the first detection of a name wins, its confidence and severity
are not updated), and every appended survivor has a name that was not
yet present; the merge does not deduplicate repeated names inside one
incoming batch. -/
theorem merge_nodup_invariant (S L : List DiseaseHighlight)
    (hS : (namesOf S).Nodup) (hL : (namesOf L).Nodup) :
    (namesOf (mergeDetections S L)).Nodup ∧
    (mergeDetections S L).take S.length = S ∧
    ∀ d ∈ (mergeDetections S L).drop S.length, d.disease_name ∉ namesOf S := by
  refine ⟨?_, ?_, ?_⟩
  · unfold mergeDetections namesOf
    rw [List.map_append, List.nodup_append]
    refine ⟨hS, ?_, ?_⟩
    · exact hL.sublist ((List.filter_sublist L).map _)
    · intro x hx hx2
      obtain ⟨d, hd, rfl⟩ := List.mem_map.mp hx2
      rw [List.mem_filter] at hd
      exact (of_decide_eq_true hd.2) hx
  · unfold mergeDetections
    exact List.take_left S _
  · intro d hd
    unfold mergeDetections at hd
    rw [List.drop_left] at hd
    rw [List.mem_filter] at hd
    exact of_decide_eq_true hd.2

/-- Claim C3 witness: merging the repeated 0.6-confidence Pneumonia
detection into a set already holding the 0.9-confidence one drops the
repeat and leaves the stored entry unchanged. -/
theorem merge_nodup_invariant_witness :
    (namesOf [pneumonia09]).Nodup ∧
    (namesOf (mergeDetections [pneumonia09] [pneumonia06])).Nodup ∧
    (mergeDetections [pneumonia09] [pneumonia06]).take 1 = [pneumonia09] ∧
    mergeDetections [pneumonia09] [pneumonia06] = [pneumonia09] := by
  have h := merge_nodup_invariant [pneumonia09] [pneumonia06] (by decide) (by decide)
  exact ⟨by decide, h.1, h.2.1, rfl⟩

/-- Claim C4: a final message with non-empty text appends the formatted
text to the transcript history, clears the interim slot, and issues the
analysis call immediately — for every state, so in particular regardless
of the similarity between the text and `lastAnalyzedText`; the debounce
timer and the gate state are untouched. -/
theorem final_segment_bypass (st : RecState) (m : TranscriptMsg)
    (hs : st.hasSession = true) (he : m.error = none)
    (hf : m.is_final = true) (ht : m.text ≠ "") :
    (handleMessage st m).1.liveTranscriptHistory = st.liveTranscriptHistory ++ [formatMsg m] ∧
    (handleMessage st m).1.liveTranscript = "" ∧
    (handleMessage st m).2 = [Effect.analyzeCall (formatMsg m)] ∧
    (handleMessage st m).1.pendingTimer = st.pendingTimer ∧
    (handleMessage st m).1.lastDetectedText = st.lastDetectedText := by
  have hst := final_step_state st m he hf ht
  refine ⟨by rw [hst], by rw [hst], ?_, by rw [hst], by rw [hst]⟩
  unfold handleMessage
  rw [he]
  simp only [if_neg ht, hf, if_true]
  unfold detectDiseases
  rw [hs]
  simp

/-- Claim C4 witness: a final segment identical to `lastAnalyzedText`
(similarity 1, which the debounce path would drop) still issues the
analysis call. -/
theorem final_segment_bypass_witness :
    (handleMessage { st0 with lastDetectedText := "take two aspirin" } msgFinal2).2 =
      [Effect.analyzeCall "take two aspirin"] ∧
    calculateSimilarity "take two aspirin" msgFinal2.text = 1 := by
  have h := (final_segment_bypass { st0 with lastDetectedText := "take two aspirin" } msgFinal2
    rfl rfl rfl (by decide)).2.2.1
  refine ⟨?_, similarity_self "take two aspirin" (by decide)⟩
  rw [h]
  rfl

/-- Claim C5: delivering final messages `f1..fn` in order appends
exactly `[format(f1), ..., format(fn)]` to the transcript history, where
`formatMsg` groups words by speaker tag (default `SPEAKER_1`), renders
`SPEAKER_2` as `Patient` and every other tag as `Doctor`, and falls back
to the raw text when no words are given. -/
theorem final_history_ordering (st : RecState) (ms : List TranscriptMsg)
    (h : ∀ m ∈ ms, m.error = none ∧ m.is_final = true ∧ m.text ≠ "") :
    (handleAll st ms).liveTranscriptHistory = st.liveTranscriptHistory ++ ms.map formatMsg ∧
    (∀ m2 : TranscriptMsg, m2.words = [] → formatMsg m2 = m2.text) ∧
    ∀ tag, speakerLabel tag = if tag = "SPEAKER_2" then "Patient" else "Doctor" :=
  ⟨handleAll_final_history ms st h, fun m2 hm2 => by simp [formatMsg, hm2], fun _ => rfl⟩

/-- Claim C5 witness: two concrete final messages, one with two-speaker
word data and one without, produce exactly their formatted texts in
delivery order. -/
theorem final_history_ordering_witness :
    (handleAll st0 [msgFinal1, msgFinal2]).liveTranscriptHistory =
      [formatMsg msgFinal1, formatMsg msgFinal2] ∧
    formatMsg msgFinal1 = "Doctor: hello there\nPatient: hi doctor" ∧
    formatMsg msgFinal2 = "take two aspirin" := by
  have h := (final_history_ordering st0 [msgFinal1, msgFinal2] (by decide)).1
  rw [h]
  exact ⟨rfl, by decide, rfl⟩

/-- Claim C6: the aggregation step is idempotent — merging the same
incoming detection list twice equals merging it once. -/
theorem merge_idempotent (S L : List DiseaseHighlight) :
    mergeDetections (mergeDetections S L) L = mergeDetections S L := by
  have h : L.filter (fun d => decide (d.disease_name ∉ namesOf (mergeDetections S L))) = [] := by
    rw [List.filter_eq_nil_iff]
    intro d hd
    simp only [decide_eq_true_eq, not_not]
    exact mem_namesOf_merge S L d hd
  conv_lhs => rw [mergeDetections, h]
  simp

/-- Claim C7 (amended): the Similarity Gate is pure and satisfies
`similarity(x, x) = 1` for non-empty `x`, `similarity("", y) = 0` and
`similarity(y, "") = 0`, and symmetry; on non-empty inputs it computes
the Jaccard index of the fragment sets produced by the JS whitespace
split of the lower-cased inputs — sets that include an empty fragment
when an input has leading or trailing whitespace, so the value can
differ from the Jaccard index of the non-empty whitespace-token sets. -/
theorem similarity_gate_props (x y a b : String) (hx : x ≠ "") :
    calculateSimilarity x x = 1 ∧
    calculateSimilarity "" y = 0 ∧
    calculateSimilarity y "" = 0 ∧
    calculateSimilarity a b = calculateSimilarity b a ∧
    (a ≠ "" → b ≠ "" →
      calculateSimilarity a b =
        ((tokenFinset a ∩ tokenFinset b).card : ℚ) /
          ((tokenFinset a ∪ tokenFinset b).card : ℚ)) :=
  ⟨similarity_self x hx, similarity_empty_left y, similarity_empty_right y,
   similarity_symm a b, fun ha hb => similarity_jaccard a b ha hb⟩

/-- Claim C7 counterexample: on `" a"` and `" b"` the code returns 1/3
(the leading-whitespace empty fragment is shared by both sets), while
the Jaccard index of the whitespace-token sets described by the
specification is 0 — the gate is not the Jaccard index of the
whitespace-token sets. -/
theorem similarity_token_jaccard_cex :
    calculateSimilarity " a" " b" = 1/3 ∧
    specSimilarity " a" " b" = 0 ∧
    calculateSimilarity " a" " b" ≠ specSimilarity " a" " b" := by
  have h1 : (tokenFinset " a" ∩ tokenFinset " b").card = 1 := by decide
  have h2 : (tokenFinset " a" ∪ tokenFinset " b").card = 3 := by decide
  have hc : calculateSimilarity " a" " b" = 1/3 := by
    rw [similarity_jaccard " a" " b" (by decide) (by decide), h1, h2]
    norm_num
  have hs : specSimilarity " a" " b" = 0 := by
    have h3 : (specTokenFinset " a" ∩ specTokenFinset " b").card = 0 := by decide
    unfold specSimilarity
    rw [if_neg (by simp)]
    split
    · rw [h3]
      simp
    · rfl
  refine ⟨hc, hs, ?_⟩
  rw [hc, hs]
  norm_num

/-- Claim C7 witness: the reflexivity, empty-input and symmetry
properties at concrete strings. -/
theorem similarity_gate_props_witness :
    calculateSimilarity "patient reports pain" "patient reports pain" = 1 ∧
    calculateSimilarity "" "anything" = 0 ∧
    calculateSimilarity "chest pain" "pain chest" = calculateSimilarity "pain chest" "chest pain" :=
  ⟨(similarity_gate_props "patient reports pain" "anything" "chest pain" "pain chest"
      (by decide)).1,
   (similarity_gate_props "patient reports pain" "anything" "chest pain" "pain chest"
      (by decide)).2.1,
   (similarity_gate_props "patient reports pain" "anything" "chest pain" "pain chest"
      (by decide)).2.2.2.1⟩

/-- Claim C8: stopping with an empty transcript history still clears the
recording, connection and live-transcription flags and disconnects the
audio nodes, the socket finalize effects are still emitted first, and
neither the SOAP collaborator nor the recommendation collaborator is
called. -/
theorem stop_empty_history_no_generation (st : RecState) (ws : Option Nat)
    (h : st.liveTranscriptHistory = []) :
    (stopRecording st ws).1.isRecording = false ∧
    (stopRecording st ws).1.isConnected = false ∧
    (stopRecording st ws).1.isLiveTranscribing = false ∧
    (stopRecording st ws).1.audioNodes = false ∧
    (∃ rest, (stopRecording st ws).2 = wsFinalizeOpt ws ++ rest) ∧
    (∀ t, Effect.soapCall t ∉ (stopRecording st ws).2) ∧
    ∀ t, Effect.recCall t ∉ (stopRecording st ws).2 := by
  have hempty : fullTranscriptOf (stoppedState st) = "" := by
    unfold fullTranscriptOf stoppedState
    rw [h]
    rfl
  have hsoap := generateSOAP_empty (stoppedState st) hempty
  have hrec : (generateRecommendations (generateSOAP (stoppedState st)).1).2 = [] := by
    rw [generateSOAP_fst]
    exact generateRec_empty (stoppedState st) hempty
  have hstate : (stopRecording st ws).1 = stoppedState st := by
    unfold stopRecording
    split_ifs with hs
    · rw [generateSOAP_fst, generateRecommendations_fst]
    · rfl
  have heff2 : (stopRecording st ws).2 = wsFinalizeOpt ws ∨
      ∃ s, (stopRecording st ws).2 = wsFinalizeOpt ws ++ [Effect.alertMsg s] := by
    unfold stopRecording
    split_ifs with hs
    · rcases hsoap with h0 | ⟨s, h0⟩
      · left
        rw [h0, hrec]
        simp
      · right
        refine ⟨s, ?_⟩
        rw [h0, hrec]
        simp
    · left
      rfl
  refine ⟨by rw [hstate]; rfl, by rw [hstate]; rfl, by rw [hstate]; rfl, by rw [hstate]; rfl,
    ?_, ?_, ?_⟩
  · rcases heff2 with h0 | ⟨s, h0⟩
    · exact ⟨[], by rw [h0]; simp⟩
    · exact ⟨[Effect.alertMsg s], by rw [h0]⟩
  · intro t hmem
    rcases heff2 with h0 | ⟨s, h0⟩ <;> rw [h0] at hmem
    · rcases wsFinalizeOpt_effects_kind ws _ hmem with ⟨p, hp⟩ | ⟨c, hc⟩ <;> simp_all
    · rw [List.mem_append] at hmem
      rcases hmem with hmem | hmem
      · rcases wsFinalizeOpt_effects_kind ws _ hmem with ⟨p, hp⟩ | ⟨c, hc⟩ <;> simp_all
      · simp_all
  · intro t hmem
    rcases heff2 with h0 | ⟨s, h0⟩ <;> rw [h0] at hmem
    · rcases wsFinalizeOpt_effects_kind ws _ hmem with ⟨p, hp⟩ | ⟨c, hc⟩ <;> simp_all
    · rw [List.mem_append] at hmem
      rcases hmem with hmem | hmem
      · rcases wsFinalizeOpt_effects_kind ws _ hmem with ⟨p, hp⟩ | ⟨c, hc⟩ <;> simp_all
      · simp_all

/-- Claim C8 witness: stopping the fresh recording state (empty
history, open socket) clears the recording flag and emits no SOAP or
recommendation call. -/
theorem stop_empty_history_no_generation_witness :
    st0.liveTranscriptHistory = [] ∧
    (stopRecording st0 (some 1)).1.isRecording = false ∧
    (∀ t, Effect.soapCall t ∉ (stopRecording st0 (some 1)).2) ∧
    ∀ t, Effect.recCall t ∉ (stopRecording st0 (some 1)).2 := by
  have h := stop_empty_history_no_generation st0 (some 1) rfl
  exact ⟨rfl, h.1, h.2.2.2.2.2.1, h.2.2.2.2.2.2⟩

/-- Claim C9: when `stopRecording` runs on an OPEN socket (readyState
1), the effects begin with the sentinel send `"END_OF_STREAM"` followed
immediately by the close with normal code 1000; on a CLOSING (2) or
CLOSED (3) socket no close and no send is issued. -/
theorem stop_ws_finalize_order (st : RecState) (rs : Nat) :
    (rs = 1 → ∃ rest, (stopRecording st (some rs)).2 =
      Effect.wsSend "END_OF_STREAM" :: Effect.wsClose 1000 :: rest) ∧
    (rs = 2 ∨ rs = 3 → ∀ c, Effect.wsClose c ∉ (stopRecording st (some rs)).2) ∧
    (rs = 2 ∨ rs = 3 → ∀ p, Effect.wsSend p ∉ (stopRecording st (some rs)).2) := by
  obtain ⟨rest, hrest, hkind⟩ := stopRecording_effects st (some rs)
  refine ⟨?_, ?_, ?_⟩
  · intro h1
    subst h1
    refine ⟨rest, ?_⟩
    rw [hrest]
    rfl
  · intro h23 c hmem
    rw [hrest, List.mem_append] at hmem
    rcases hmem with hmem | hmem
    · have hnil : wsFinalize rs = [] := by
        rcases h23 with h | h <;> subst h <;> rfl
      simp only [wsFinalizeOpt] at hmem
      rw [hnil] at hmem
      exact absurd hmem (List.not_mem_nil _)
    · rcases hkind _ hmem with ⟨t, h⟩ | ⟨t, h⟩ | ⟨s, h⟩ <;> simp_all
  · intro h23 p hmem
    rw [hrest, List.mem_append] at hmem
    rcases hmem with hmem | hmem
    · have hnil : wsFinalize rs = [] := by
        rcases h23 with h | h <;> subst h <;> rfl
      simp only [wsFinalizeOpt] at hmem
      rw [hnil] at hmem
      exact absurd hmem (List.not_mem_nil _)
    · rcases hkind _ hmem with ⟨t, h⟩ | ⟨t, h⟩ | ⟨s, h⟩ <;> simp_all

/-- Claim C9 witness: stopping the fresh state on an open socket sends
the sentinel and then closes with code 1000. -/
theorem stop_ws_finalize_order_witness :
    ∃ rest, (stopRecording st0 (some 1)).2 =
      Effect.wsSend "END_OF_STREAM" :: Effect.wsClose 1000 :: rest :=
  (stop_ws_finalize_order st0 1).1 rfl

/-- Claim C10: across every dispatched event, `lastAnalyzedText` changes
only when the timer-fire event consumes an armed debounce timer (and
then it becomes the armed text); in particular every inbound message —
the immediate analysis of a final segment as much as a dropped debounced
request — and every stop leave it unchanged. -/
theorem lastAnalyzedText_single_writer (st : RecState) (e : Event) :
    ((step st e).1.lastDetectedText = st.lastDetectedText ∨
      (e = Event.timerFire ∧ st.pendingTimer = some ((step st e).1.lastDetectedText))) ∧
    (∀ m, (handleMessage st m).1.lastDetectedText = st.lastDetectedText) ∧
    ∀ ws, (stopRecording st ws).1.lastDetectedText = st.lastDetectedText := by
  have hstop : ∀ ws, (stopRecording st ws).1.lastDetectedText = st.lastDetectedText := by
    intro ws
    unfold stopRecording
    split_ifs with hs
    · rw [generateSOAP_fst, generateRecommendations_fst]
      rfl
    · rfl
  refine ⟨?_, hm_lastDetected st, hstop⟩
  cases e with
  | message m => exact Or.inl (hm_lastDetected st m)
  | timerFire =>
    cases hp : st.pendingTimer with
    | none =>
      left
      show (debounceTimerFire st).1.lastDetectedText = st.lastDetectedText
      unfold debounceTimerFire
      rw [hp]
    | some t =>
      right
      refine ⟨rfl, ?_⟩
      have hval : (debounceTimerFire st).1.lastDetectedText = t := by
        unfold debounceTimerFire
        rw [hp, detectDiseases_fst]
      show some t = some ((debounceTimerFire st).1.lastDetectedText)
      rw [hval]
  | analysisResponse ds =>
    left
    show (applyDetections st ds).lastDetectedText = st.lastDetectedText
    unfold applyDetections
    split_ifs <;> rfl
  | stop ws => exact Or.inl (hstop ws)

end TranscribeRx
